import Mathlib

/-!
Verification development for the hostplane control plane.

The Go sources are shallowly embedded: pure functions become Lean
functions, SQL-backed state-store operations become pure transformers of
an explicit `DBState`, and the worker loop becomes an explicit step
function parameterised by an execution oracle.  Machine-independent
details (timestamps in minutes as `Nat`, DNS as an explicit resolver
function) are made explicit parameters.
-/

namespace Hostplane

/-! ## Lifecycle module (source: lifecycle file, `SiteStatus` and friends) -/

/-- The eleven site lifecycle states, from the `SiteStatus` constants. -/
inductive SiteStatus where
  | created
  | provisioning
  | active
  | domainPending
  | domainValidating
  | domainRouting
  | domainActive
  | domainRemoving
  | destroying
  | destroyed
  | failed
deriving DecidableEq, Repr, Fintype

/-- The string stored in the `sites.status` column for each lifecycle value
(the Go constants are typed string values). -/
def SiteStatus.toDbString : SiteStatus → String
  | .created => "CREATED"
  | .provisioning => "PROVISIONING"
  | .active => "ACTIVE"
  | .domainPending => "DOMAIN_PENDING"
  | .domainValidating => "DOMAIN_VALIDATING"
  | .domainRouting => "DOMAIN_ROUTING"
  | .domainActive => "DOMAIN_ACTIVE"
  | .domainRemoving => "DOMAIN_REMOVING"
  | .destroying => "DESTROYING"
  | .destroyed => "DESTROYED"
  | .failed => "FAILED"

/-- Partial inverse of `SiteStatus.toDbString`: recognise a stored status
string as a lifecycle value.  Strings outside the lifecycle set map to
`none`. -/
def parseSiteStatus (s : String) : Option SiteStatus :=
  if s = "CREATED" then some .created
  else if s = "PROVISIONING" then some .provisioning
  else if s = "ACTIVE" then some .active
  else if s = "DOMAIN_PENDING" then some .domainPending
  else if s = "DOMAIN_VALIDATING" then some .domainValidating
  else if s = "DOMAIN_ROUTING" then some .domainRouting
  else if s = "DOMAIN_ACTIVE" then some .domainActive
  else if s = "DOMAIN_REMOVING" then some .domainRemoving
  else if s = "DESTROYING" then some .destroying
  else if s = "DESTROYED" then some .destroyed
  else if s = "FAILED" then some .failed
  else none

/-- Source `allowedTransitions`: the legal state-machine edges.
`destroyed` has no entry in the Go map, so lookup yields the empty list. -/
def allowedTransitions : SiteStatus → List SiteStatus
  | .created => [.provisioning]
  | .provisioning => [.active, .failed]
  | .active => [.domainPending, .destroying]
  | .domainPending => [.domainValidating, .active]
  | .domainValidating => [.domainRouting, .domainPending, .active]
  | .domainRouting => [.domainActive, .active]
  | .domainActive => [.domainRemoving, .destroying]
  | .domainRemoving => [.active, .failed]
  | .destroying => [.destroyed, .failed]
  | .failed => [.provisioning, .destroying]
  | .destroyed => []

/-- Source `CanTransitionTo`: linear scan of the allowed-target
list for the `from` state. -/
def SiteStatus.CanTransitionTo (f t : SiteStatus) : Bool :=
  (allowedTransitions f).contains t

/-- Source `IsTerminal`. -/
def SiteStatus.IsTerminal (s : SiteStatus) : Bool :=
  s = .destroyed || s = .failed

/-! ## String helpers

Embeddings of the Go standard-library string operations the sources use
(`strings.ToLower`, `strings.TrimSpace`, `strings.HasPrefix`,
`strings.HasSuffix`, splitting on a separator).  They are defined by
structural recursion over the character list so that concrete instances
compute by kernel reduction. -/

/-- Go `strings.ToLower` for the ASCII data this controller handles. -/
def lowerAscii (s : String) : String := String.mk (s.data.map Char.toLower)

/-- Go `strings.TrimSpace`: strip leading and trailing whitespace. -/
def trimSpace (s : String) : String :=
  String.mk (((s.data.dropWhile Char.isWhitespace).reverse.dropWhile
    Char.isWhitespace).reverse)

/-- Character-list comparison underlying the affix tests: does the
second list lead the first? -/
def listLeads : List Char → List Char → Bool
  | _, [] => true
  | [], _ :: _ => false
  | c :: cs, p :: ps => c = p && listLeads cs ps

/-- Go `strings.HasPrefix`. -/
def strStartsWith (s pat : String) : Bool := listLeads s.data pat.data

/-- Go `strings.HasSuffix`. -/
def strEndsWith (s pat : String) : Bool :=
  listLeads s.data.reverse pat.data.reverse

/-- Split a character list at every `.` (like `strings.Split` /
`splitOn "."`): `""` yields `[""]`, separators at the ends yield empty
parts. -/
def splitOnDot : List Char → List (List Char)
  | [] => [[]]
  | c :: rest =>
    let r := splitOnDot rest
    if c = '.' then [] :: r
    else
      match r with
      | [] => [[c]]
      | h :: t => (c :: h) :: t

/-! ## Domain validation (source: lifecycle file, domain helpers) -/

/-- Class `[a-zA-Z0-9]` (ASCII, as in the Go regexp). -/
def isAlnumChar (c : Char) : Bool :=
  c.isAlpha || c.isDigit

/-- Class `[a-zA-Z0-9-]` (ASCII). -/
def isLabelChar (c : Char) : Bool :=
  isAlnumChar c || c = '-'

/-- One DNS label of the Go regexp,
`[a-zA-Z0-9]([a-zA-Z0-9-]{0,61}[a-zA-Z0-9])?`: between 1 and 63
characters, every character alphanumeric or a hyphen, and the first and
last characters alphanumeric. -/
def matchLabel (cs : List Char) : Bool :=
  decide (1 ≤ cs.length) && decide (cs.length ≤ 63) &&
    cs.all isLabelChar && isAlnumChar (cs.headD '-') &&
    isAlnumChar (cs.reverse.headD '-')

/-- The trailing `[a-zA-Z]{2,}` of the Go regexp: at least two ASCII
letters. -/
def matchTLD (cs : List Char) : Bool :=
  decide (2 ≤ cs.length) && cs.all Char.isAlpha

/-- Source `domainRegexp.MatchString` for the anchored Go regexp
`^([a-zA-Z0-9]([a-zA-Z0-9-]{0,61}[a-zA-Z0-9])?\.)+[a-zA-Z]{2,}$`.
Since neither a label nor the final letter block may contain a dot, a
full match decomposes uniquely at the dots: the string splits on `.`
into at least two parts, all but the last matching the label
sub-expression and the last matching `[a-zA-Z]{2,}`. -/
def domainRegexpMatch (d : String) : Bool :=
  let parts := splitOnDot d.data
  decide (2 ≤ parts.length) &&
    parts.dropLast.all matchLabel &&
    matchTLD (parts.reverse.headD [])

/-- Source `ValidateDomainFormat`.  Go's `len` counts bytes, so
the 253-character cap is embedded as `utf8ByteSize`. -/
def ValidateDomainFormat (domain : String) : Except String Unit :=
  if domain = "" then .error "domain cannot be empty"
  else if 253 < domain.utf8ByteSize then .error "domain too long (max 253 characters)"
  else if strStartsWith domain "*." then .error "wildcard domains are not supported"
  else if !domainRegexpMatch domain then .error ("invalid domain format: " ++ domain)
  else .ok ()

/-- Source `ValidateDomainNotBase`. -/
def ValidateDomainNotBase (domain baseDomain : String) : Except String Unit :=
  if strEndsWith domain ("." ++ baseDomain) || domain = baseDomain then
    .error ("cannot use " ++ domain ++ " as custom domain (conflicts with base domain " ++ baseDomain ++ ")")
  else .ok ()

/-- Source `ValidateCustomDomain`: format check then base-domain
check. -/
def ValidateCustomDomain (domain baseDomain : String) : Except String Unit :=
  match ValidateDomainFormat domain with
  | .error e => .error e
  | .ok () => ValidateDomainNotBase domain baseDomain

/-- A DNS resolver: what `net.LookupHost` returns for a name, made an
explicit parameter (`.error` for a failed lookup). -/
def DnsResolver := String → Except String (List String)

/-- Source `ValidateDomainPointsToIngress`: resolve the domain
and succeed exactly when some resolved address equals the expected
ingress IP. -/
def ValidateDomainPointsToIngress (dns : DnsResolver) (domain expectedIP : String) :
    Except String Unit :=
  match dns domain with
  | .error e => .error ("domain " ++ domain ++ " does not resolve: " ++ e)
  | .ok addrs =>
    if addrs.contains expectedIP then .ok ()
    else .error ("domain " ++ domain ++ " does not point to " ++ expectedIP)

/-! ## State store (source: db file with `Job`, `Site`, and the `DB` methods)

The two SQL tables become two Lean lists; each `DB` method becomes a pure
transformer.  Timestamps are minutes as `Nat` (only `created_at` ordering
in `ClaimNextJob` and the `started_at` age test in `RecoverStuckJobs`
depend on time); the `updated_at` bookkeeping column, which no control
flow reads, is elided. -/

/-- Job types.  `PROVISION` and `DESTROY` are declared in the db file;
`STATIC_PROVISION` is declared outside the available sources but is
dispatched on by the API and the naming module.  Modelled from the spec:
job type is one of `PROVISION | DESTROY | STATIC_PROVISION`. -/
inductive JobType where
  | provision
  | destroy
  | staticProvision
deriving DecidableEq, Repr

/-- Job statuses, from the `JobStatus` constants. -/
inductive JobStatus where
  | pending
  | processing
  | completed
  | failed
deriving DecidableEq, Repr

/-- One row of the `jobs` table.  `payload` is the staged-archive path
column written by the static-provision path (its `DB` accessor is outside
the available sources; modelled from the spec: jobs carry an optional
payload such as the staging path of an uploaded archive). -/
structure JobRow where
  id : String
  type : JobType
  site : String
  status : JobStatus
  attempts : Nat
  maxAttempts : Nat
  error : Option String
  payload : Option String
  createdAt : Nat
  startedAt : Option Nat
  completedAt : Option Nat
deriving DecidableEq, Repr

/-- One row of the `sites` table.  `customDomain` is the
`custom_domain` column read and written by the custom-domain API path
(its `DB` accessors are outside the available sources; modelled from the
spec: a site has an optional custom domain, unique across sites, with
the empty string for "not set" as in the Go struct). -/
structure SiteRow where
  site : String
  domain : String
  customDomain : String
  status : String
  jobID : String
deriving DecidableEq, Repr

/-- The durable control-plane state: the `jobs` and `sites` tables. -/
structure DBState where
  jobs : List JobRow
  sites : List SiteRow
deriving DecidableEq, Repr

/-- Source `InsertJob`: append a `PENDING` job with attempts 0 and
max_attempts 3 (the literal SQL defaults). -/
def insertJob (st : DBState) (id : String) (jobType : JobType) (site : String)
    (now : Nat) : DBState :=
  let j : JobRow :=
    { id := id, type := jobType, site := site, status := .pending,
      attempts := 0, maxAttempts := 3, error := none, payload := none,
      createdAt := now, startedAt := none, completedAt := none }
  { st with jobs := st.jobs ++ [j] }

/-- Source `UpsertSite`: insert the row, or on duplicate key update only
`status` and `job_id` (the `ON DUPLICATE KEY UPDATE` clause does not
touch `domain` or `custom_domain`). -/
def upsertSite (st : DBState) (site domain status jobID : String) : DBState :=
  if st.sites.any (fun r => r.site = site) then
    { st with sites := st.sites.map (fun r =>
        if r.site = site then { r with status := status, jobID := jobID } else r) }
  else
    let r : SiteRow :=
      { site := site, domain := domain, customDomain := "",
        status := status, jobID := jobID }
    { st with sites := st.sites ++ [r] }

/-- Source `UpdateSiteStatus`: `UPDATE sites SET status=? WHERE site=?` — an
unconditional write, with no transition validation. -/
def updateSiteStatus (st : DBState) (site status : String) : DBState :=
  { st with sites := st.sites.map (fun r =>
      if r.site = site then { r with status := status } else r) }

/-- Source `GetSite`: first row with the given site name. -/
def getSite (st : DBState) (site : String) : Option SiteRow :=
  st.sites.find? (fun r => r.site = site)

/-- Source `GetJob`: first row with the given job id. -/
def getJob (st : DBState) (id : String) : Option JobRow :=
  st.jobs.find? (fun j => j.id = id)

/-- Source `HasActiveJob`: the site has a `PENDING` or `PROCESSING` job. -/
def hasActiveJob (st : DBState) (site : String) : Bool :=
  st.jobs.any (fun j => j.site = site &&
    (j.status = JobStatus.pending || j.status = JobStatus.processing))

/-- The `WHERE` clause of `ClaimNextJob`: `status='PENDING' AND
attempts < max_attempts`. -/
def claimable (j : JobRow) : Bool :=
  j.status = JobStatus.pending && j.attempts < j.maxAttempts

/-- Clause `ORDER BY created_at ASC LIMIT 1` over the claimable jobs: the
first-listed job of minimal creation time (ties broken by row order). -/
def oldestClaimable (jobs : List JobRow) : Option JobRow :=
  jobs.foldl (fun acc j =>
    if claimable j then
      match acc with
      | none => some j
      | some b => if j.createdAt < b.createdAt then some j else acc
    else acc) none

/-- Source `ClaimNextJob`: select the oldest claimable job, set it
`PROCESSING`, increment `attempts`, stamp `started_at`.  The returned
`JobRow` carries the selected (pre-update) column values, exactly as the
Go code scans them before the `UPDATE`. -/
def claimNextJob (st : DBState) (now : Nat) : Option JobRow × DBState :=
  match oldestClaimable st.jobs with
  | none => (none, st)
  | some job =>
    let upd := fun (j : JobRow) =>
      if j.id = job.id then
        { j with status := JobStatus.processing, attempts := j.attempts + 1, startedAt := some now }
      else j
    (some job, { st with jobs := st.jobs.map upd })

/-- Source `CompleteJob`: mark the job `COMPLETED` (clearing `error`, stamping
`completed_at`), then write the site status — `DESTROYED` for destroy
jobs, `ACTIVE` otherwise. -/
def completeJob (st : DBState) (jobID site : String) (jobType : JobType)
    (now : Nat) : DBState :=
  let st' := { st with jobs := st.jobs.map (fun j =>
      if j.id = jobID then
        { j with status := .completed, completedAt := some now, error := none }
      else j) }
  let finalSiteStatus := if jobType = JobType.destroy then "DESTROYED" else "ACTIVE"
  updateSiteStatus st' site finalSiteStatus

/-- Source `FailJob`: mark the job `FAILED` storing the error string, then
write the site status to the literal `"PROVISIONING"` (the source's
"leave it in limbo" write), whatever the site's current status is. -/
def failJob (st : DBState) (jobID site msg : String) : DBState :=
  let st' := { st with jobs := st.jobs.map (fun j =>
      if j.id = jobID then { j with status := .failed, error := some msg } else j) }
  updateSiteStatus st' site "PROVISIONING"

/-- Source `RetryJob`: put the job back to `PENDING` with a prefixed error
message; `attempts` is untouched (already incremented on claim). -/
def retryJob (st : DBState) (jobID msg : String) : DBState :=
  { st with jobs := st.jobs.map (fun j =>
      if j.id = jobID then
        { j with status := .pending, error := some ("attempt failed: " ++ msg) }
      else j) }

/-- The error marker `RecoverStuckJobs` writes. -/
def recoveredMarker : String := "recovered: was stuck in PROCESSING"

/-- The `WHERE` clause of `RecoverStuckJobs`: `status='PROCESSING' AND
started_at < NOW() - INTERVAL ? MINUTE` (a `NULL` `started_at` compares
false). -/
def isStuck (now timeoutMinutes : Nat) (j : JobRow) : Bool :=
  j.status = JobStatus.processing &&
    match j.startedAt with
    | some s => s + timeoutMinutes < now
    | none => false

/-- Source `RecoverStuckJobs`: reset every stuck `PROCESSING` job to `PENDING`
with the recovery marker; return the number of rows affected. -/
def recoverStuckJobs (st : DBState) (now timeoutMinutes : Nat) : Nat × DBState :=
  ((st.jobs.filter (isStuck now timeoutMinutes)).length,
   { st with jobs := st.jobs.map (fun j =>
       if isStuck now timeoutMinutes j then
         { j with status := .pending, error := some recoveredMarker }
       else j) })

/-- Source `HardDeleteSite`: `DELETE FROM jobs WHERE site=?` then
`DELETE FROM sites WHERE site=?`. -/
def hardDeleteSite (st : DBState) (site : String) : DBState :=
  { jobs := st.jobs.filter (fun j => j.site ≠ site),
    sites := st.sites.filter (fun r => r.site ≠ site) }

/-! ## Worker (source: worker file, `Worker.processNext`)

Job execution (the provisioner / destroyer call) is abstracted as an
oracle `exec : JobRow → Option String`, where `none` is success and
`some msg` the error string `jobErr.Error()`. -/

/-- What a tick of the worker did, for stating observable behaviour. -/
inductive WorkerEvent where
  | completed (id : String)
  | failed (id : String)
  | retried (id : String)
deriving DecidableEq, Repr

/-- Source `Worker.processNext`: claim the next job; on success `CompleteJob`;
on error, `FailJob` when the claimed-row `attempts` value (the
pre-increment count the Go code scanned) has reached `max_attempts`,
else `RetryJob`. -/
def processNext (exec : JobRow → Option String) (now : Nat) (st : DBState) :
    DBState × Option WorkerEvent :=
  match claimNextJob st now with
  | (none, st') => (st', none)
  | (some job, st') =>
    match exec job with
    | none => (completeJob st' job.id job.site job.type now, some (.completed job.id))
    | some msg =>
      if job.maxAttempts ≤ job.attempts then
        (failJob st' job.id job.site msg, some (.failed job.id))
      else
        (retryJob st' job.id msg, some (.retried job.id))

/-- Run `n` worker ticks starting at time `now`, one minute apart,
collecting the events. -/
def runWorker (exec : JobRow → Option String) (st : DBState) (now : Nat) :
    Nat → DBState × List WorkerEvent
  | 0 => (st, [])
  | n + 1 =>
    match processNext exec now st with
    | (st', ev) =>
      let rest := runWorker exec st' (now + 1) n
      (rest.1, ev.toList ++ rest.2)

/-! ## Naming (source: naming file) -/

/-- Source `PHPContainerName`. -/
def PHPContainerName (site : String) : String := "php_" ++ site

/-- Source `NginxContainerName`: the sidecar container name `nginx_<site>`.
The naming source file in this tree omits it, but the repo's runbook
shows its definition and every caller and config uses the
`nginx_<site>` pattern. -/
def NginxContainerName (site : String) : String := "nginx_" ++ site

/-- Source `VolumeName`. -/
def VolumeName (site : String) : String := "wp_" ++ site

/-- Source `WPDatabaseName`. -/
def WPDatabaseName (site : String) : String := "wp_" ++ site

/-- Source `WPDatabaseUser`. -/
def WPDatabaseUser (site : String) : String := "wp_" ++ site

/-- Source `SiteDomain`. -/
def SiteDomain (site baseDomain : String) : String := site ++ "." ++ baseDomain

/-- Source `CaddyConfFile`. -/
def CaddyConfFile (site : String) : String := site ++ ".caddy"

/-! ## Infra resource model (sources: provisioner and destroyer files)

The external systems are modelled by the sets of named resources that
exist: application databases and users on the state host, volumes and
containers on the container host, and edge (Caddy) snippets inside the
edge container.  `Provisioner.Run` and `Destroyer.Run` become their
success-path effects on this state; the claims settled against this
model quantify only over successful runs, so failure/rollback branches
are not represented. -/

structure InfraState where
  databases : List String
  /-- Database users as (name, allowed host) pairs: `CREATE USER 'u'@'h'`. -/
  dbUsers : List (String × String)
  volumes : List String
  containers : List String
  snippets : List String
deriving DecidableEq, Repr

/-- Add a name if absent (the provisioner's steps are idempotent:
`IF NOT EXISTS` SQL, idempotent volume create, inspect-then-start
container create). -/
def addUnique (l : List String) (x : String) : List String :=
  if l.contains x then l else l ++ [x]

def addUniquePair (l : List (String × String)) (x : String × String) :
    List (String × String) :=
  if l.contains x then l else l ++ [x]

/-- The effect on infrastructure of a successful `Provisioner.Run site`:
database + user `wp_<site>`@`%`, volume `wp_<site>`, containers
`php_<site>` and `nginx_<site>`, edge snippet `<site>.caddy`.  (The
nginx server block written inside the sidecar and the reloads leave no
separate named resource.) -/
def provisionRun (i : InfraState) (site : String) : InfraState :=
  { databases := addUnique i.databases (WPDatabaseName site),
    dbUsers := addUniquePair i.dbUsers (WPDatabaseUser site, "%"),
    volumes := addUnique i.volumes (VolumeName site),
    containers := addUnique (addUnique i.containers (PHPContainerName site)) (NginxContainerName site),
    snippets := addUnique i.snippets (CaddyConfFile site) }

/-- The effect on infrastructure of a successful `Destroyer.Run site`:
remove the `php_<site>` container, the `wp_<site>` volume and the
`<site>.caddy` snippet (each tolerating absence), reload the edge
router, and drop database `wp_<site>` and user `wp_<site>`@`<app IP>`.
The destroyer never touches the `nginx_<site>` sidecar container, and
the user drop names the `<app IP>` host while the provisioner created
the user at host `%`. -/
def destroyRun (i : InfraState) (site appServerIP : String) : InfraState :=
  { databases := i.databases.filter (fun d => d ≠ WPDatabaseName site),
    dbUsers := i.dbUsers.filter (fun u => u ≠ (WPDatabaseUser site, appServerIP)),
    volumes := i.volumes.filter (fun v => v ≠ VolumeName site),
    containers := i.containers.filter (fun c => c ≠ PHPContainerName site),
    snippets := i.snippets.filter (fun f => f ≠ CaddyConfFile site) }

/-! ## API surface (source: api file)

Handlers become pure functions of the request and the durable state.
Fresh UUIDs and the clock are parameters.  SQL/transport failures are
not represented (every modelled DB call succeeds); `net/http` details
reduce to a status code plus the `error`/`message` field. -/

/-- A response: HTTP status code and the `error` or `message` string
(empty when the handler sets neither). -/
structure HttpResp where
  status : Nat
  message : String
deriving DecidableEq, Repr

/-- Source `validSite`: the anchored regexp `^[a-z0-9]+$` — non-empty, every
character an ASCII lowercase letter or digit. -/
def validSite (s : String) : Bool :=
  decide (s ≠ "") && s.toList.all (fun c => c.isLower || c.isDigit)

/-- Source `handleProvision`.  The JSON binding rejects a missing/empty site
(400); the handler lowercases the name, validates it, applies the
active-job and already-ACTIVE guards, then inserts the job and upserts
the site with `PROVISIONING`. -/
def handleProvision (st : DBState) (reqSite jobID baseDomain : String)
    (now : Nat) : HttpResp × DBState :=
  if reqSite = "" then ({ status := 400, message := "site is required" }, st)
  else
    let site := lowerAscii reqSite
    if !validSite site then
      ({ status := 400, message := "site name must be lowercase letters and numbers only" }, st)
    else if hasActiveJob st site then
      ({ status := 409, message := "site already has a pending or processing job" }, st)
    else
      let accepted :=
        ({ status := 202, message := "" },
         upsertSite (insertJob st jobID .provision site now) site
           (SiteDomain site baseDomain) "PROVISIONING" jobID)
      match getSite st site with
      | some e =>
        if e.status = "ACTIVE" then
          ({ status := 409, message := "site already exists and is active" }, st)
        else accepted
      | none => accepted

/-- Source `handleDestroy`: lowercase + validate the name, require the site to
exist and not already be destroying/destroyed, apply the active-job
guard, then insert a destroy job and upsert the site with
`DESTROYING`. -/
def handleDestroy (st : DBState) (reqSite jobID : String) (now : Nat) :
    HttpResp × DBState :=
  if reqSite = "" then ({ status := 400, message := "site is required" }, st)
  else
    let site := lowerAscii reqSite
    if !validSite site then
      ({ status := 400, message := "site name must be lowercase letters and numbers only" }, st)
    else
      match getSite st site with
      | none => ({ status := 404, message := "site not found" }, st)
      | some existing =>
        if existing.status = "DESTROYING" || existing.status = "DESTROYED" then
          ({ status := 409, message := "site is already being destroyed or is destroyed" }, st)
        else if hasActiveJob st site then
          ({ status := 409, message := "site already has a pending or processing job" }, st)
        else
          ({ status := 202, message := "" },
           upsertSite (insertJob st jobID .destroy site now) site
             existing.domain "DESTROYING" jobID)

/-- Store the staged-archive path on a job.  Modelled from the spec: the
`SetJobPayload` accessor (outside the available sources) records the
archive staging path in the job's payload column. -/
def setJobPayload (st : DBState) (jobID path : String) : DBState :=
  { st with jobs := st.jobs.map (fun j =>
      if j.id = jobID then { j with payload := some path } else j) }

/-- Source `handleStaticProvision`: lowercase the form field, validate, apply
the same guards as provision, require the zip upload, then insert a
static-provision job, upsert the site with `PROVISIONING`, and record
the staged zip path as the job payload. -/
def handleStaticProvision (st : DBState) (formSite : String) (zip : Option Unit)
    (jobID baseDomain : String) (now : Nat) : HttpResp × DBState :=
  let site := lowerAscii formSite
  if site = "" then ({ status := 400, message := "site is required" }, st)
  else if !validSite site then
    ({ status := 400, message := "site name must be lowercase letters and numbers only" }, st)
  else if hasActiveJob st site then
    ({ status := 409, message := "site already has a pending or processing job" }, st)
  else
    let proceed :=
      match zip with
      | none => ({ status := 400, message := "zip file is required" }, st)
      | some _ =>
        let tmpPath := "/tmp/" ++ site ++ ".zip"
        ({ status := 202, message := "" },
         setJobPayload
           (upsertSite (insertJob st jobID .staticProvision site now) site
             (SiteDomain site baseDomain) "PROVISIONING" jobID)
           jobID tmpPath)
    match getSite st site with
    | some e =>
      if e.status = "ACTIVE" then
        ({ status := 409, message := "site already exists and is active" }, st)
      else proceed
    | none => proceed

/-- Source `handleDeleteSite`: hard delete gated on status `DESTROYED`. -/
def handleDeleteSite (st : DBState) (site : String) : HttpResp × DBState :=
  match getSite st site with
  | none => ({ status := 404, message := "site not found" }, st)
  | some existing =>
    if existing.status ≠ "DESTROYED" then
      ({ status := 409, message := "site must be DESTROYED before hard delete" }, st)
    else
      ({ status := 200, message := "" }, hardDeleteSite st site)

/-! ### Custom-domain attachment (source: api file, `handleSetCustomDomain`) -/

/-- Check no other site holds the requested custom domain.  Modelled
from the spec: `EnsureDomainAvailable(domain, site)` (outside the
available sources) fails with "domain already claimed" if any other
site currently holds this custom domain. -/
def ensureDomainAvailable (st : DBState) (domain site : String) :
    Except String Unit :=
  if st.sites.any (fun r => r.site ≠ site && r.customDomain = domain) then
    .error "domain already claimed"
  else .ok ()

/-- Commit a custom domain on the site row.  Modelled from the spec: the
`SetCustomDomain` store operation (outside the available sources) writes
the new `custom_domain` value for the site. -/
def setCustomDomainDb (st : DBState) (site domain : String) : DBState :=
  { st with sites := st.sites.map (fun r =>
      if r.site = site then { r with customDomain := domain } else r) }

/-- Source `isWordPressSite`: a site is treated as WordPress unless its
recorded job is a static provision (missing job id or job row defaults
to WordPress). -/
def isWordPressSite (st : DBState) (s : SiteRow) : Bool :=
  if s.jobID = "" then true
  else
    match getJob st s.jobID with
    | none => true
    | some job => job.type = JobType.provision

/-- Infrastructure mutations the custom-domain path can perform, as an
observable trace: a sidecar nginx-config rewrite (with reload), an edge
snippet regeneration, an application URL update. -/
inductive InfraAction where
  | sidecarRewrite (site : String)
  | caddyRegen (site : String)
  | wpUrlsUpdate (site : String)
deriving DecidableEq, Repr

/-- Source `regenerateCaddy`: re-reads the site and its job to pick the snippet
format, then rewrites the snippet.  Fails when the site row or the job
row is missing. -/
def regenerateCaddy (st : DBState) (site : String) :
    Except String InfraAction :=
  match getSite st site with
  | none => .error "site lookup failed"
  | some existing =>
    match getJob st existing.jobID with
    | none => .error "job lookup failed"
    | some _ => .ok (.caddyRegen site)

/-- Source `handleSetCustomDomain`: validate the (trimmed, lowercased) domain,
gate on DNS pointing at the ingress IP, domain availability, site
existence and an `ACTIVE`/`DOMAIN_ACTIVE` status; return "domain already
set" untouched when the stored custom domain already equals the request;
otherwise rewrite the sidecar config (WordPress sites), regenerate the
edge snippet (rolling the sidecar back on failure), best-effort-update
the application URLs, and only then commit the new custom domain.
Container-side writes are modelled as always succeeding; the result
carries the trace of infrastructure mutations performed. -/
def handleSetCustomDomain (st : DBState) (dns : DnsResolver)
    (baseDomain publicIP siteParam reqDomain : String) :
    HttpResp × DBState × List InfraAction :=
  if reqDomain = "" then
    ({ status := 400, message := "domain is required" }, st, [])
  else
    let domain := lowerAscii (trimSpace reqDomain)
    match ValidateCustomDomain domain baseDomain with
    | .error e => ({ status := 400, message := e }, st, [])
    | .ok () =>
      match ValidateDomainPointsToIngress dns domain publicIP with
      | .error e => ({ status := 400, message := e }, st, [])
      | .ok () =>
        match ensureDomainAvailable st domain siteParam with
        | .error e => ({ status := 409, message := e }, st, [])
        | .ok () =>
          match getSite st siteParam with
          | none => ({ status := 404, message := "site not found" }, st, [])
          | some existing =>
            if existing.status ≠ "ACTIVE" && existing.status ≠ "DOMAIN_ACTIVE" then
              ({ status := 409, message := "site must be ACTIVE to set custom domain" }, st, [])
            else if existing.customDomain = domain then
              ({ status := 200, message := "domain already set" }, st, [])
            else
              let isWP := isWordPressSite st existing
              let acts1 : List InfraAction :=
                if isWP then [.sidecarRewrite siteParam] else []
              match regenerateCaddy st siteParam with
              | .error e =>
                let rollback : List InfraAction :=
                  if isWP then [.sidecarRewrite siteParam] else []
                ({ status := 500, message := "caddy update failed: " ++ e }, st,
                 acts1 ++ rollback)
              | .ok a2 =>
                let acts3 : List InfraAction :=
                  if isWP then [.wpUrlsUpdate siteParam] else []
                ({ status := 200, message := "" },
                 setCustomDomainDb st siteParam domain,
                 acts1 ++ [a2] ++ acts3)

/-! ## Spec-side definitions and concrete instances

`specTransitionEdges` transcribes the spec's transition matrix verbatim,
for comparison against the source's `CanTransitionTo`.  The remaining
definitions are concrete states and inputs used to instantiate the
theorems below. -/

/-- The transition matrix exactly as the spec lists it, edge by edge. -/
def specTransitionEdges : List (SiteStatus × SiteStatus) :=
  [(.created, .provisioning),
   (.provisioning, .active), (.provisioning, .failed),
   (.active, .domainPending), (.active, .destroying),
   (.domainPending, .domainValidating), (.domainPending, .active),
   (.domainValidating, .domainRouting), (.domainValidating, .domainPending),
   (.domainValidating, .active),
   (.domainRouting, .domainActive), (.domainRouting, .active),
   (.domainActive, .domainRemoving), (.domainActive, .destroying),
   (.domainRemoving, .active), (.domainRemoving, .failed),
   (.destroying, .destroyed), (.destroying, .failed),
   (.failed, .provisioning), (.failed, .destroying)]

/-- The empty control-plane database. -/
def db0 : DBState := { jobs := [], sites := [] }

/-- Empty infrastructure. -/
def infra0 : InfraState :=
  { databases := [], dbUsers := [], volumes := [], containers := [], snippets := [] }

/-- A destroy job being processed for site `s1`. -/
def jC1 : JobRow :=
  { id := "jd", type := .destroy, site := "s1", status := .processing,
    attempts := 1, maxAttempts := 3, error := none, payload := none,
    createdAt := 0, startedAt := some 1, completedAt := none }

/-- Site `s1` mid-destroy. -/
def rowC1 : SiteRow :=
  { site := "s1", domain := "s1.example.com", customDomain := "",
    status := "DESTROYING", jobID := "jd" }

/-- A state with one site in `DESTROYING` and its in-flight destroy job. -/
def stC1 : DBState := { jobs := [jC1], sites := [rowC1] }

/-- The `s1` row as `FailJob` leaves it. -/
def rowC1after : SiteRow :=
  { site := "s1", domain := "s1.example.com", customDomain := "",
    status := "PROVISIONING", jobID := "jd" }

/-- A fresh provision job for `mysite` that will fail on every attempt. -/
def jC2 : JobRow :=
  { id := "j1", type := .provision, site := "mysite", status := .pending,
    attempts := 0, maxAttempts := 3, error := none, payload := none,
    createdAt := 0, startedAt := none, completedAt := none }

/-- The `mysite` row as the provision request creates it. -/
def rowC2 : SiteRow :=
  { site := "mysite", domain := "mysite.example.com", customDomain := "",
    status := "PROVISIONING", jobID := "j1" }

/-- Initial state for the persistent-failure worker run. -/
def stC2 : DBState := { jobs := [jC2], sites := [rowC2] }

/-- An execution oracle that errors on every attempt. -/
def failingExec : JobRow → Option String := fun _ => some "boom"

/-- Five worker ticks against the always-failing job. -/
def c2run : DBState × List WorkerEvent := runWorker failingExec stC2 1 5

/-- The stuck end state of the always-failing job: `PENDING` with
`attempts = max_attempts`, never claimable again. -/
def jC2final : JobRow :=
  { id := "j1", type := .provision, site := "mysite", status := .pending,
    attempts := 3, maxAttempts := 3, error := some "attempt failed: boom",
    payload := none, createdAt := 0, startedAt := some 3, completedAt := none }

/-- A destroy job being processed for site `beta`. -/
def jC3 : JobRow :=
  { id := "jb", type := .destroy, site := "beta", status := .processing,
    attempts := 3, maxAttempts := 3, error := none, payload := none,
    createdAt := 0, startedAt := some 1, completedAt := none }

/-- Site `beta` mid-destroy. -/
def rowC3 : SiteRow :=
  { site := "beta", domain := "beta.example.com", customDomain := "",
    status := "DESTROYING", jobID := "jb" }

/-- A state with site `beta` in `DESTROYING` and its destroy job. -/
def stC3 : DBState := { jobs := [jC3], sites := [rowC3] }

/-- The `beta` destroy job as `FailJob` leaves it. -/
def jC3after : JobRow :=
  { id := "jb", type := .destroy, site := "beta", status := .failed,
    attempts := 3, maxAttempts := 3, error := some "disk full", payload := none,
    createdAt := 0, startedAt := some 1, completedAt := none }

/-- C4 pipeline, state after a provision request, a successful
provisioner run and job completion. -/
def c4dbProvisioned : DBState :=
  completeJob (claimNextJob ((handleProvision db0 "mysite" "job1" "example.com" 0).2) 1).2
    "job1" "mysite" .provision 2

/-- Infrastructure after the successful provision of `mysite`. -/
def c4infraProvisioned : InfraState := provisionRun infra0 "mysite"

/-- C4 pipeline, state after the destroy request. -/
def c4dbDestroyRequested : DBState := (handleDestroy c4dbProvisioned "mysite" "job2" 3).2

/-- C4 pipeline, final state after the successful destroyer run and job
completion. -/
def c4dbFinal : DBState :=
  completeJob (claimNextJob c4dbDestroyRequested 4).2 "job2" "mysite" .destroy 5

/-- Infrastructure after the successful destroy of `mysite`. -/
def c4infraFinal : InfraState := destroyRun c4infraProvisioned "mysite" "10.10.0.10"

/-- A `PROCESSING` job stuck since time 0. -/
def jC6stuck : JobRow :=
  { id := "js", type := .provision, site := "stucksite", status := .processing,
    attempts := 1, maxAttempts := 3, error := none, payload := none,
    createdAt := 0, startedAt := some 0, completedAt := none }

/-- A state holding only the stuck job. -/
def stC6 : DBState := { jobs := [jC6stuck], sites := [] }

/-- The completed provision job behind the C8 site. -/
def jC8 : JobRow :=
  { id := "j8", type := .provision, site := "mysite", status := .completed,
    attempts := 1, maxAttempts := 3, error := none, payload := none,
    createdAt := 0, startedAt := some 1, completedAt := some 2 }

/-- An `ACTIVE` site that already holds the custom domain
`shop.example.com`. -/
def rowC8 : SiteRow :=
  { site := "mysite", domain := "mysite.base.tld", customDomain := "shop.example.com",
    status := "ACTIVE", jobID := "j8" }

/-- State for the idempotent custom-domain call. -/
def st8 : DBState := { jobs := [jC8], sites := [rowC8] }

/-- A resolver under which `shop.example.com` points at the ingress IP. -/
def dns8 : DnsResolver := fun d =>
  if d = "shop.example.com" then .ok ["1.2.3.4"] else .error "no such host"

/-- A completed job of the site to be hard-deleted. -/
def jC10a : JobRow :=
  { id := "ja", type := .provision, site := "gone", status := .completed,
    attempts := 1, maxAttempts := 3, error := none, payload := none,
    createdAt := 0, startedAt := some 1, completedAt := some 2 }

/-- A failed job of the site to be hard-deleted. -/
def jC10b : JobRow :=
  { id := "jb10", type := .destroy, site := "gone", status := .failed,
    attempts := 3, maxAttempts := 3, error := some "boom", payload := none,
    createdAt := 3, startedAt := some 4, completedAt := none }

/-- A job belonging to a different site. -/
def jC10c : JobRow :=
  { id := "jc", type := .provision, site := "other", status := .completed,
    attempts := 1, maxAttempts := 3, error := none, payload := none,
    createdAt := 5, startedAt := some 6, completedAt := some 7 }

/-- The destroyed site awaiting hard delete. -/
def rowC10gone : SiteRow :=
  { site := "gone", domain := "gone.example.com", customDomain := "",
    status := "DESTROYED", jobID := "jb10" }

/-- An unrelated live site. -/
def rowC10other : SiteRow :=
  { site := "other", domain := "other.example.com", customDomain := "",
    status := "ACTIVE", jobID := "jc" }

/-- State for the hard-delete scenario. -/
def stC10 : DBState :=
  { jobs := [jC10a, jC10b, jC10c], sites := [rowC10gone, rowC10other] }

/-! ## Helper lemmas -/

/-- Updating the rows selected by a key-preserving function commutes
with `find?` on that key. -/
theorem find?_map_updateIf {α : Type} (key : α → String) (k : String)
    (f : α → α) (hf : ∀ a, key (f a) = key a) (l : List α) :
    (l.map (fun a => if key a = k then f a else a)).find? (fun a => key a = k) =
      (l.find? (fun a => key a = k)).map f := by
  induction l with
  | nil => rfl
  | cons a l ih =>
    by_cases h : key a = k
    · simp [List.find?_cons, h, hf]
    · simp [List.find?_cons, h, ih]

/-- Reading `getSite` after `updateSiteStatus` on the same site: the found row is
the old row with the new status. -/
theorem getSite_updateSiteStatus (st : DBState) (site status : String) :
    getSite (updateSiteStatus st site status) site =
      (getSite st site).map (fun r => { r with status := status }) := by
  simpa [getSite, updateSiteStatus] using
    find?_map_updateIf SiteRow.site site (fun r => { r with status := status })
      (fun _ => rfl) st.sites

/-- Reading `getSite` only touches the `sites` table, so `failJob`'s job-table
write is invisible to it and its site write is `updateSiteStatus`. -/
theorem getSite_failJob (st : DBState) (jobID site msg : String) :
    getSite (failJob st jobID site msg) site =
      (getSite st site).map (fun r => { r with status := "PROVISIONING" }) := by
  simpa [failJob, getSite, updateSiteStatus] using
    find?_map_updateIf SiteRow.site site (fun r => { r with status := "PROVISIONING" })
      (fun _ => rfl) st.sites

/-- Reading `getSite` after `completeJob`: the found row is the old row with the
final status for the job type. -/
theorem getSite_completeJob (st : DBState) (jobID site : String)
    (jobType : JobType) (now : Nat) :
    getSite (completeJob st jobID site jobType now) site =
      (getSite st site).map (fun r =>
        { r with status := if jobType = JobType.destroy then "DESTROYED" else "ACTIVE" }) := by
  simpa [completeJob, getSite, updateSiteStatus] using
    find?_map_updateIf SiteRow.site site
      (fun r => { r with status := if jobType = JobType.destroy then "DESTROYED" else "ACTIVE" })
      (fun _ => rfl) st.sites

/-- Reading `getJob` after `failJob`: the found job is the old one marked
`FAILED` with the stored error. -/
theorem getJob_failJob (st : DBState) (jobID site msg : String) :
    getJob (failJob st jobID site msg) jobID =
      (getJob st jobID).map (fun j =>
        { j with status := JobStatus.failed, error := some msg }) := by
  simpa [failJob, getJob, updateSiteStatus] using
    find?_map_updateIf JobRow.id jobID
      (fun j => { j with status := JobStatus.failed, error := some msg })
      (fun _ => rfl) st.jobs

/-- A worker with nothing claimable leaves the state untouched for any
number of ticks. -/
theorem runWorker_stable (exec : JobRow → Option String) (st : DBState)
    (h : oldestClaimable st.jobs = none) :
    ∀ n now, runWorker exec st now n = (st, []) := by
  intro n
  induction n with
  | zero => intro now; rfl
  | succ n ih =>
    intro now
    simp [runWorker, processNext, claimNextJob, h, ih]

/-! ## Claims -/

/-- C5: `CanTransitionTo(from, to)` returns true exactly on the edges of
the spec's transition matrix, and `DESTROYED` has no outgoing edge at
all. -/
theorem C5_transition_matrix :
    (∀ f t : SiteStatus,
        SiteStatus.CanTransitionTo f t = true ↔ (f, t) ∈ specTransitionEdges)
    ∧ (∀ t : SiteStatus, SiteStatus.CanTransitionTo .destroyed t = false) := by
  decide

/-- C7: `ValidateCustomDomain` accepts a domain exactly when it is
non-empty, at most 253 bytes, not a wildcard, matches the label regexp,
differs from the base domain and does not end in `.<base>`; and
`ValidateDomainPointsToIngress` succeeds exactly when the lookup
resolves and some resolved address equals the expected ingress IP. -/
theorem C7_domain_validation :
    (∀ domain baseDomain : String,
        ValidateCustomDomain domain baseDomain = .ok () ↔
          (domain ≠ "" ∧ domain.utf8ByteSize ≤ 253 ∧
           strStartsWith domain "*." = false ∧ domainRegexpMatch domain = true ∧
           domain ≠ baseDomain ∧ strEndsWith domain ("." ++ baseDomain) = false))
    ∧ (∀ (dns : DnsResolver) (domain ip : String),
        ValidateDomainPointsToIngress dns domain ip = .ok () ↔
          ∃ addrs, dns domain = .ok addrs ∧ ip ∈ addrs) := by
  constructor
  · intro domain baseDomain
    unfold ValidateCustomDomain ValidateDomainFormat ValidateDomainNotBase
    split_ifs with h1 h2 h3 h4 h5
    · exact iff_of_false (by simp) (fun hconj => hconj.1 h1)
    · refine iff_of_false (by simp) ?_
      rintro ⟨-, hle, -⟩
      omega
    · refine iff_of_false (by simp) ?_
      rintro ⟨-, -, hsw, -⟩
      simp_all
    · refine iff_of_false (by simp) ?_
      rintro ⟨-, -, -, hrx, -⟩
      simp_all
    · refine iff_of_false (by simp) ?_
      rintro ⟨-, -, -, -, hne, hew⟩
      rcases Bool.or_eq_true_iff.mp h5 with h | h
      · simp_all
      · exact hne (by simpa using h)
    · refine iff_of_true rfl ⟨h1, by omega, ?_, ?_, ?_, ?_⟩
      · simpa using h3
      · simpa using h4
      · intro hx
        exact h5 (by simp [hx])
      · have : strEndsWith domain ("." ++ baseDomain) = false := by
          by_contra hx
          exact h5 (by simp_all)
        exact this
  · intro dns domain ip
    unfold ValidateDomainPointsToIngress
    cases h : dns domain with
    | error e => simp [h]
    | ok addrs =>
      by_cases hc : ip ∈ addrs
      · have hct : addrs.contains ip = true := List.elem_iff.mpr hc
        simp [h, hct, hc]
      · have hcf : addrs.contains ip = false := by
          rw [Bool.eq_false_iff]
          intro hx
          exact hc (List.elem_iff.mp hx)
        simp [h, hcf, hc]

/-- C1 counterexample: `FailJob` on a site in `DESTROYING` writes
`PROVISIONING`, and `(DESTROYING, PROVISIONING)` is not an edge of
`allowedTransitions` — a state-store write that leaves the legal
lifecycle matrix. -/
theorem C1_counterexample :
    (getSite stC1 "s1").map SiteRow.status = some "DESTROYING"
    ∧ (getSite (failJob stC1 "jd" "s1" "docker daemon unreachable") "s1").map SiteRow.status
        = some "PROVISIONING"
    ∧ parseSiteStatus "DESTROYING" = some SiteStatus.destroying
    ∧ parseSiteStatus "PROVISIONING" = some SiteStatus.provisioning
    ∧ SiteStatus.CanTransitionTo SiteStatus.destroying SiteStatus.provisioning = false := by
  decide

/-- C1 (amended): the store never consults `allowedTransitions`.
`CompleteJob`'s site write is a legal edge from the status the enqueue
path set (`PROVISIONING → ACTIVE` for provision, `DESTROYING →
DESTROYED` for destroy); but `FailJob` writes the constant
`PROVISIONING`, which is a legal edge only from `CREATED` or `FAILED` —
in particular illegal when a destroy job fails. -/
theorem C1_amended_store_writes :
    (∀ (st : DBState) (jobID site msg : String) (r : SiteRow),
        getSite (failJob st jobID site msg) site = some r → r.status = "PROVISIONING")
    ∧ (∀ f : SiteStatus,
        SiteStatus.CanTransitionTo f .provisioning = true ↔ (f = .created ∨ f = .failed))
    ∧ (∀ (st : DBState) (jobID site : String) (now : Nat) (r r' : SiteRow),
        getSite st site = some r →
        getSite (completeJob st jobID site .provision now) site = some r' →
          r'.status = "ACTIVE" ∧
          (r.status = "PROVISIONING" →
            SiteStatus.CanTransitionTo .provisioning .active = true))
    ∧ (∀ (st : DBState) (jobID site : String) (now : Nat) (r r' : SiteRow),
        getSite st site = some r →
        getSite (completeJob st jobID site .destroy now) site = some r' →
          r'.status = "DESTROYED" ∧
          (r.status = "DESTROYING" →
            SiteStatus.CanTransitionTo .destroying .destroyed = true)) := by
  refine ⟨?_, by decide, ?_, ?_⟩
  · intro st jobID site msg r h
    rw [getSite_failJob] at h
    rcases Option.map_eq_some'.mp h with ⟨r0, -, rfl⟩
    rfl
  · intro st jobID site now r r' h h'
    rw [getSite_completeJob] at h'
    rcases Option.map_eq_some'.mp h' with ⟨r0, -, rfl⟩
    exact ⟨rfl, fun _ => by decide⟩
  · intro st jobID site now r r' h h'
    rw [getSite_completeJob] at h'
    rcases Option.map_eq_some'.mp h' with ⟨r0, -, rfl⟩
    exact ⟨rfl, fun _ => by decide⟩

/-- C1 witness: the amended theorem applied to the concrete
`DESTROYING` site. -/
theorem C1_amended_witness :
    getSite (failJob stC1 "jd" "s1" "docker daemon unreachable") "s1" = some rowC1after
    ∧ rowC1after.status = "PROVISIONING" :=
  ⟨by decide,
   C1_amended_store_writes.1 stC1 "jd" "s1" "docker daemon unreachable" rowC1after (by decide)⟩

/-- C2 (code bug evidence): a job that errors on every execution is
retried on each of its three claims (the worker compares the
pre-increment `attempts` it scanned, which `ClaimNextJob`'s
`attempts < max_attempts` filter keeps below the maximum), ends
`PENDING` with `attempts = max_attempts`, is never claimed again, and
`FailJob` never runs: the job never reaches `FAILED` and the site stays
`PROVISIONING`. -/
theorem C2_persistent_failure_never_fails_job :
    c2run.2 = [.retried "j1", .retried "j1", .retried "j1"]
    ∧ getJob c2run.1 "j1" = some jC2final
    ∧ (getSite c2run.1 "mysite").map SiteRow.status = some "PROVISIONING"
    ∧ (∀ n now, runWorker failingExec c2run.1 now n = (c2run.1, [])) := by
  refine ⟨by decide, by decide, by decide, ?_⟩
  exact runWorker_stable failingExec c2run.1 (by decide)

/-- C3 counterexample: `FailJob` after a failed destroy does not leave
the site in `DESTROYING` — it rewrites it to `PROVISIONING`. -/
theorem C3_counterexample :
    (getSite stC3 "beta").map SiteRow.status = some "DESTROYING"
    ∧ ¬ ((getSite (failJob stC3 "jb" "beta" "disk full") "beta").map SiteRow.status
          = some "DESTROYING") := by
  decide

/-- C3 (amended): `FailJob` sets the job `FAILED` and stores the error
string, but writes the site's status to the constant `PROVISIONING`;
the site keeps its prior row exactly when that status was already
`PROVISIONING` (the failed-provision case), and in particular a failed
destroy moves the site from `DESTROYING` to `PROVISIONING`. -/
theorem C3_amended_failJob :
    (∀ (st : DBState) (jobID site msg : String) (j : JobRow),
        getJob (failJob st jobID site msg) jobID = some j →
          j.status = JobStatus.failed ∧ j.error = some msg)
    ∧ (∀ (st : DBState) (jobID site msg : String) (r : SiteRow),
        getSite (failJob st jobID site msg) site = some r → r.status = "PROVISIONING")
    ∧ (∀ (st : DBState) (jobID site msg : String) (r r' : SiteRow),
        getSite st site = some r →
        getSite (failJob st jobID site msg) site = some r' →
          (r' = r ↔ r.status = "PROVISIONING")) := by
  refine ⟨?_, ?_, ?_⟩
  · intro st jobID site msg j h
    rw [getJob_failJob] at h
    rcases Option.map_eq_some'.mp h with ⟨j0, -, rfl⟩
    exact ⟨rfl, rfl⟩
  · intro st jobID site msg r h
    rw [getSite_failJob] at h
    rcases Option.map_eq_some'.mp h with ⟨r0, -, rfl⟩
    rfl
  · intro st jobID site msg r r' h h'
    rw [getSite_failJob, h] at h'
    rcases Option.map_eq_some'.mp h' with ⟨r0, h0, rfl⟩
    cases Option.some.injEq .. ▸ h0
    constructor
    · intro he
      exact (congrArg SiteRow.status he).symm
    · intro hs
      cases r
      simp_all

/-- C3 witness: the amended theorem applied to the concrete failed
destroy of site `beta`. -/
theorem C3_amended_witness :
    getJob (failJob stC3 "jb" "beta" "disk full") "jb" = some jC3after
    ∧ jC3after.status = JobStatus.failed ∧ jC3after.error = some "disk full" :=
  ⟨by decide,
   C3_amended_failJob.1 stC3 "jb" "beta" "disk full" jC3after (by decide)⟩

/-- C4 (code bug evidence): a successful provision followed by a
successful destroy removes the database, the volume, the `php_mysite`
container and the edge snippet, and leaves the site row `DESTROYED` —
but the `nginx_mysite` sidecar container survives, because
`Destroyer.Run` never removes it. -/
theorem C4_destroy_leaves_sidecar :
    (handleProvision db0 "mysite" "job1" "example.com" 0).1.status = 202
    ∧ (handleDestroy c4dbProvisioned "mysite" "job2" 3).1.status = 202
    ∧ c4infraProvisioned.containers = [PHPContainerName "mysite", NginxContainerName "mysite"]
    ∧ c4infraFinal.databases = []
    ∧ c4infraFinal.volumes = []
    ∧ c4infraFinal.snippets = []
    ∧ c4infraFinal.containers = [NginxContainerName "mysite"]
    ∧ (getSite c4dbFinal "mysite").map SiteRow.status = some "DESTROYED" := by
  decide

/-- A job reset by the recovery write is no longer stuck: its status is
`PENDING`, not `PROCESSING`. -/
theorem isStuckRecoveredFalse (now t : Nat) (j : JobRow) :
    isStuck now t { j with status := JobStatus.pending, error := some recoveredMarker } = false := by
  simp [isStuck]

/-- C6: `RecoverStuckJobs` affects exactly the `PROCESSING` jobs older
than the timeout — returning their count, resetting each to `PENDING`
with the marker `recovered: was stuck in PROCESSING`, touching nothing
else — and a second call immediately after recovers zero jobs. -/
theorem C6_recoverStuckJobs_spec :
    ∀ (st : DBState) (now t : Nat),
      (recoverStuckJobs st now t).1 = (st.jobs.filter (isStuck now t)).length
      ∧ (∀ (i : Nat) (j : JobRow), st.jobs[i]? = some j → isStuck now t j = true →
          (recoverStuckJobs st now t).2.jobs[i]? =
            some { j with status := JobStatus.pending, error := some recoveredMarker })
      ∧ (∀ (i : Nat) (j : JobRow), st.jobs[i]? = some j → isStuck now t j = false →
          (recoverStuckJobs st now t).2.jobs[i]? = some j)
      ∧ (recoverStuckJobs (recoverStuckJobs st now t).2 now t).1 = 0 := by
  intro st now t
  refine ⟨rfl, ?_, ?_, ?_⟩
  · intro i j hj hs
    simp [recoverStuckJobs, List.getElem?_map, hj, hs]
  · intro i j hj hs
    simp [recoverStuckJobs, List.getElem?_map, hj, hs]
  · simp only [recoverStuckJobs]
    rw [List.length_eq_zero, List.filter_eq_nil_iff]
    intro a ha
    rcases List.mem_map.mp ha with ⟨j, -, rfl⟩
    by_cases hs : isStuck now t j = true
    · simp [hs, isStuckRecoveredFalse]
    · simp only [Bool.not_eq_true] at hs
      simp [hs]

/-- C6 witness: the theorem applied to a job stuck since minute 0 with a
10-minute timeout checked at minute 20. -/
theorem C6_witness :
    (recoverStuckJobs stC6 20 10).2.jobs[0]? =
      some { jC6stuck with status := JobStatus.pending, error := some recoveredMarker } :=
  (C6_recoverStuckJobs_spec stC6 20 10).2.1 0 jC6stuck (by decide) (by decide)

/-- C8: when the request reaches the idempotency check (binding, format
validation, ingress DNS gate, availability and status gates all pass)
and the stored custom domain already equals the normalised request, the
handler answers 200 "domain already set", leaves the state store
untouched, and performs no infrastructure mutation. -/
theorem C8_setCustomDomain_idempotent :
    ∀ (st : DBState) (dns : DnsResolver)
      (baseDomain publicIP siteParam reqDomain : String) (existing : SiteRow),
      reqDomain ≠ "" →
      ValidateCustomDomain (lowerAscii (trimSpace reqDomain)) baseDomain = .ok () →
      ValidateDomainPointsToIngress dns (lowerAscii (trimSpace reqDomain)) publicIP = .ok () →
      ensureDomainAvailable st (lowerAscii (trimSpace reqDomain)) siteParam = .ok () →
      getSite st siteParam = some existing →
      (existing.status = "ACTIVE" ∨ existing.status = "DOMAIN_ACTIVE") →
      existing.customDomain = lowerAscii (trimSpace reqDomain) →
      handleSetCustomDomain st dns baseDomain publicIP siteParam reqDomain =
        ({ status := 200, message := "domain already set" }, st, []) := by
  intro st dns base ip siteP req ex hne hval hdns havail hget hstat hcd
  have hguard : (decide (ex.status ≠ "ACTIVE") && decide (ex.status ≠ "DOMAIN_ACTIVE")) = false := by
    rcases hstat with h | h <;> simp [h]
  simp only [handleSetCustomDomain, if_neg hne, hval, hdns, havail, hget, hguard, hcd]
  simp

/-- C8 witness: the idempotency theorem applied to the `ACTIVE` site
`mysite` whose stored custom domain is already `shop.example.com`. -/
theorem C8_witness :
    handleSetCustomDomain st8 dns8 "base.tld" "1.2.3.4" "mysite" "shop.example.com" =
      ({ status := 200, message := "domain already set" }, st8, []) :=
  C8_setCustomDomain_idempotent st8 dns8 "base.tld" "1.2.3.4" "mysite" "shop.example.com"
    rowC8 (by decide) rfl rfl rfl (by decide) (Or.inl rfl) (by decide)

/-- C9 counterexample: a provision request for the uppercase name
`"ABC"` is not rejected — the handler lowercases it, answers 202 and
creates a job for `abc` — whereas the claim demands a 400 with no job
created. -/
theorem C9_counterexample :
    (handleProvision db0 "ABC" "job9" "example.com" 0).1.status = 202
    ∧ (handleProvision db0 "ABC" "job9" "example.com" 0).2.jobs.map JobRow.site = ["abc"] := by
  decide

/-- C9 (amended): the provision, destroy and static-provision handlers
lowercase the site name before validating it; an empty name or one whose
lowercased form fails `^[a-z0-9]+$` is rejected with 400 and no state
change, while names containing uppercase letters are normalised rather
than rejected and (with the guards clear) accepted with 202. -/
theorem C9_amended_name_validation :
    (∀ (st : DBState) (reqSite jobID baseDomain : String) (now : Nat),
        reqSite = "" ∨ validSite (lowerAscii reqSite) = false →
          (handleProvision st reqSite jobID baseDomain now).1.status = 400 ∧
          (handleProvision st reqSite jobID baseDomain now).2 = st)
    ∧ (∀ (st : DBState) (reqSite jobID : String) (now : Nat),
        reqSite = "" ∨ validSite (lowerAscii reqSite) = false →
          (handleDestroy st reqSite jobID now).1.status = 400 ∧
          (handleDestroy st reqSite jobID now).2 = st)
    ∧ (∀ (st : DBState) (formSite jobID baseDomain : String) (zip : Option Unit) (now : Nat),
        lowerAscii formSite = "" ∨ validSite (lowerAscii formSite) = false →
          (handleStaticProvision st formSite zip jobID baseDomain now).1.status = 400 ∧
          (handleStaticProvision st formSite zip jobID baseDomain now).2 = st)
    ∧ (∀ (st : DBState) (reqSite jobID baseDomain : String) (now : Nat),
        validSite (lowerAscii reqSite) = true →
        hasActiveJob st (lowerAscii reqSite) = false →
        (∀ e : SiteRow, getSite st (lowerAscii reqSite) = some e → e.status ≠ "ACTIVE") →
          (handleProvision st reqSite jobID baseDomain now).1.status = 202) := by
  refine ⟨?_, ?_, ?_, ?_⟩
  · intro st reqSite jobID baseDomain now h
    by_cases he : reqSite = ""
    · simp [handleProvision, he]
    · rcases h with h | h
      · exact absurd h he
      · simp [handleProvision, he, h]
  · intro st reqSite jobID now h
    by_cases he : reqSite = ""
    · simp [handleDestroy, he]
    · rcases h with h | h
      · exact absurd h he
      · simp [handleDestroy, he, h]
  · intro st formSite jobID baseDomain zip now h
    by_cases he : lowerAscii formSite = ""
    · simp [handleStaticProvision, he]
    · rcases h with h | h
      · exact absurd h he
      · simp [handleStaticProvision, he, h]
  · intro st reqSite jobID baseDomain now hv hj hs
    have hne : reqSite ≠ "" := by
      intro he
      rw [he] at hv
      exact absurd hv (by decide)
    simp only [handleProvision, if_neg hne, hv, hj]
    cases hg : getSite st (lowerAscii reqSite) with
    | none => simp
    | some e =>
      have := hs e hg
      simp [this]

/-- C9 witness: the amended theorem applied to a punctuated name
(rejected, state unchanged) and to an uppercase name over the empty
store (accepted after lowercasing). -/
theorem C9_amended_witness :
    ((handleProvision db0 "ab!cd" "jobw" "example.com" 0).1.status = 400
      ∧ (handleProvision db0 "ab!cd" "jobw" "example.com" 0).2 = db0)
    ∧ (handleProvision db0 "WXYZ9" "jobw2" "example.com" 0).1.status = 202 :=
  ⟨C9_amended_name_validation.1 db0 "ab!cd" "jobw" "example.com" 0 (Or.inr (by decide)),
   C9_amended_name_validation.2.2.2 db0 "WXYZ9" "jobw2" "example.com" 0 (by decide) (by decide)
     (by intro e he; simp [getSite, db0] at he)⟩

/-- C10: `HardDeleteSite` removes the site row and every job row of that
site — whatever the job status, completed and failed included — and a
job id that only ever belonged to the deleted site is afterwards not
found by `GetJob`. -/
theorem C10_hardDeleteSite_spec :
    ∀ (st : DBState) (site : String),
      ((hardDeleteSite st site).jobs.all (fun j => j.site ≠ site) = true)
      ∧ ((hardDeleteSite st site).sites.all (fun r => r.site ≠ site) = true)
      ∧ (∀ id : String, (∀ j ∈ st.jobs, j.id = id → j.site = site) →
          getJob (hardDeleteSite st site) id = none) := by
  intro st site
  refine ⟨?_, ?_, ?_⟩
  · rw [List.all_eq_true]
    intro j hj
    exact (List.mem_filter.mp hj).2
  · rw [List.all_eq_true]
    intro r hr
    exact (List.mem_filter.mp hr).2
  · intro id h
    rw [getJob, List.find?_eq_none]
    intro j hj hpid
    rcases List.mem_filter.mp hj with ⟨hmem, hns⟩
    have hid : j.id = id := by simpa using hpid
    have hsite : j.site = site := h j hmem hid
    exact absurd hsite (by simpa using hns)

/-- C10 witness: the theorem applied to the concrete store — after hard
deleting site `gone`, its completed job `ja` is no longer found. -/
theorem C10_witness :
    getJob (hardDeleteSite stC10 "gone") "ja" = none :=
  (C10_hardDeleteSite_spec stC10 "gone").2.2 "ja" (by decide)

end Hostplane
